import Mathlib

/-!
Verification of the realtime market-data streaming client
(`app/core/ws_client.py` and `app/services/websocket_service.py`).

The Python source is embedded shallowly: pure helpers become Lean functions,
the stateful client becomes explicit state passing, fallible operations return
`Except`.  Strings are treated as their ASCII content (the granularity inputs
and channel tags the code compares against are all ASCII).
-/

/-! ## Granularity resolution (`_resolve_granularity`, `GRANULARITY_MAP`) -/

/-- Python `str.upper()` restricted to ASCII, which covers every string the
granularity table compares against. -/
def py_upper (s : String) : String :=
  String.mk (s.data.map Char.toUpper)

/-- Python `str.strip()`: drop leading and trailing whitespace. -/
def py_strip (s : String) : String :=
  String.mk (((s.data.dropWhile Char.isWhitespace).reverse.dropWhile
    Char.isWhitespace).reverse)

/-- A Python dict of literal key/value pairs, as an association list;
`dict_get k t` is `t.get(k)` (`None` on a miss). -/
def dict_get {α β : Type} [DecidableEq α] (k : α) : List (α × β) → Option β
  | [] => none
  | p :: rest => if k = p.1 then some p.2 else dict_get k rest

/-- The literal `alias` dict inside `_resolve_granularity`, looked up after
`granularity.strip().upper()`. -/
def alias_table : List (String × String) :=
  [("ONE_MINUTE", "ONE_MINUTE"),
   ("FIVE_MINUTE", "FIVE_MINUTE"),
   ("FIFTEEN_MINUTE", "FIFTEEN_MINUTE"),
   ("THIRTY_MINUTE", "THIRTY_MINUTE"),
   ("ONE_HOUR", "ONE_HOUR"),
   ("ONE_DAY", "ONE_DAY"),
   ("1M", "ONE_MINUTE"),
   ("5M", "FIVE_MINUTE"),
   ("15M", "FIFTEEN_MINUTE"),
   ("30M", "THIRTY_MINUTE"),
   ("1H", "ONE_HOUR"),
   ("1D", "ONE_DAY")]

def alias_map (g : String) : Option String := dict_get g alias_table

/-- The string keys of the module-level `GRANULARITY_MAP` dict. -/
def granularity_map_str_table : List (String × String) :=
  [("1m", "ONE_MINUTE"), ("5m", "FIVE_MINUTE"), ("15m", "FIFTEEN_MINUTE"),
   ("30m", "THIRTY_MINUTE"), ("1h", "ONE_HOUR"), ("1d", "ONE_DAY")]

def granularity_map_str (s : String) : Option String :=
  dict_get s granularity_map_str_table

/-- The integer (seconds) keys of the module-level `GRANULARITY_MAP` dict. -/
def granularity_map_int_table : List (Int × String) :=
  [(60, "ONE_MINUTE"), (300, "FIVE_MINUTE"), (900, "FIFTEEN_MINUTE"),
   (1800, "THIRTY_MINUTE"), (3600, "ONE_HOUR"), (86400, "ONE_DAY")]

def granularity_map_int (n : Int) : Option String :=
  dict_get n granularity_map_int_table

/-- The argument of `_resolve_granularity`: `None`, a string, or an int. -/
inductive GranInput where
  | absent
  | ofString (s : String)
  | ofInt (n : Int)
deriving DecidableEq

/-- `_resolve_granularity`.  On a string it strips and uppercases, consults the
alias dict, and otherwise falls back to `GRANULARITY_MAP.get` applied to the
ORIGINAL (un-normalized) string, exactly as the source does; on an int it
consults `GRANULARITY_MAP.get`; `None` and every miss yield "THIRTY_MINUTE". -/
def resolve_granularity : GranInput → String
  | GranInput.absent => "THIRTY_MINUTE"
  | GranInput.ofString s =>
      match alias_map (py_upper (py_strip s)) with
      | some v => v
      | none => (granularity_map_str s).getD "THIRTY_MINUTE"
  | GranInput.ofInt n => (granularity_map_int n).getD "THIRTY_MINUTE"

/-- The six canonical candle-granularity enum values. -/
def canonical_granularities : List String :=
  ["ONE_MINUTE", "FIVE_MINUTE", "FIFTEEN_MINUTE", "THIRTY_MINUTE",
   "ONE_HOUR", "ONE_DAY"]

/-! ## Message routing (`CoinbaseWSClient._route_message`)

A decoded message is modelled by its two routing keys; the rest of the dict
plays no part in routing and is identified with the message value itself.
A callback is a function that either returns or raises (`Except.error`).
Routing produces the observable effects: callback invocations and log
records. -/

structure Msg where
  channel : Option String
  type : Option String
deriving DecidableEq

/-- Python `data.get("channel") or data.get("type")`: the `channel` value when
present and truthy (a non-empty string), else the `type` value. -/
def py_or_str (a b : Option String) : Option String :=
  match a with
  | some s => if s = "" then b else some s
  | none => b

def route_channel (m : Msg) : Option String := py_or_str m.channel m.type

def Callback : Type := Msg → Except String Unit

structure Callbacks where
  on_ticker : Option Callback
  on_candle : Option Callback
  on_heartbeat : Option Callback

inductive CbSlot where
  | ticker
  | candle
  | heartbeat
deriving DecidableEq

/-- An observable effect of routing one message: a callback invocation, or a
log record (info for meta channels, debug for unhandled ones). -/
inductive RouteEvent where
  | invoked (slot : CbSlot) (m : Msg)
  | logInfo (m : Msg)
  | logDebug (m : Msg)
deriving DecidableEq

/-- One guarded callback invocation:
`if self.on_x: try: self.on_x(data) except Exception: pass`.
The exception is swallowed by the bare `pass` — no log record is emitted. -/
def dispatch_cb (slot : CbSlot) (cb : Option Callback) (m : Msg) :
    Except String (List RouteEvent) :=
  match cb with
  | none => Except.ok []
  | some f =>
      match f m with
      | Except.ok _ => Except.ok [RouteEvent.invoked slot m]
      | Except.error _ => Except.ok [RouteEvent.invoked slot m]

/-- `_route_message`.  The result is `Except` so that an uncaught callback
exception would show as `Except.error`; the source catches them all. -/
def route_message (cbs : Callbacks) (m : Msg) :
    Except String (List RouteEvent) :=
  if route_channel m = some "ticker" ∨ route_channel m = some "ticker_batch"
  then
    dispatch_cb CbSlot.ticker cbs.on_ticker m
  else if route_channel m = some "candles" ∨ route_channel m = some "candle"
  then
    dispatch_cb CbSlot.candle cbs.on_candle m
  else if route_channel m = some "heartbeat"
      ∨ route_channel m = some "heartbeats" then
    dispatch_cb CbSlot.heartbeat cbs.on_heartbeat m
  else if route_channel m = some "subscriptions"
      ∨ route_channel m = some "error" then
    Except.ok [RouteEvent.logInfo m]
  else
    Except.ok [RouteEvent.logDebug m]

/-- The effect trace of routing one message (total form of `route_message`). -/
def route_trace (cbs : Callbacks) (m : Msg) : List RouteEvent :=
  match route_message cbs m with
  | Except.ok evs => evs
  | Except.error _ => []

/-- Routing a sequence of decoded messages as the receive loop delivers them:
one at a time, in order; an uncaught exception would abort the rest. -/
def route_all (cbs : Callbacks) : List Msg → Except String (List RouteEvent)
  | [] => Except.ok []
  | m :: ms =>
      match route_message cbs m with
      | Except.error e => Except.error e
      | Except.ok evs =>
          match route_all cbs ms with
          | Except.error e => Except.error e
          | Except.ok rest => Except.ok (evs ++ rest)

/-- The callback invocations of a trace, in order. -/
def invocations (evs : List RouteEvent) : List (CbSlot × Msg) :=
  evs.filterMap fun e =>
    match e with
    | RouteEvent.invoked slot m => some (slot, m)
    | _ => none

def is_log_event : RouteEvent → Bool
  | RouteEvent.logInfo _ => true
  | RouteEvent.logDebug _ => true
  | _ => false

/-- The channel tags `_route_message` treats specially (callbacks or info
log); everything else falls to the debug-log branch. -/
def handled_channels : List String :=
  ["ticker", "ticker_batch", "candles", "candle", "heartbeat", "heartbeats",
   "subscriptions", "error"]

def channel_handled : Option String → Bool
  | some c => handled_channels.contains c
  | none => false

/-- A callback that raises on every invocation. -/
def raising_cb : Callback := fun _ => Except.error "boom"

/-- A callback that returns normally. -/
def ok_cb : Callback := fun _ => Except.ok ()

def cbs_raising : Callbacks :=
  { on_ticker := some raising_cb, on_candle := none, on_heartbeat := none }

def cbs_mixed : Callbacks :=
  { on_ticker := some raising_cb
    on_candle := none
    on_heartbeat := some ok_cb }

def msg_ticker : Msg := { channel := some "ticker", type := none }

def msg_heartbeat : Msg := { channel := some "heartbeats", type := none }

/-! ## Subscribe requests (`_run_raw_ws`: `subscribe_msgs` and `_on_open`) -/

/-- One outbound subscribe frame, as built by `json.dumps({...})`. -/
structure SubscribeMsg where
  type : String
  product_ids : List String
  channel : String
  granularity : Option String
deriving DecidableEq

/-- The `subscribe_msgs` list built in `_run_raw_ws`: ticker and candles are
scoped to the configured products, candles carries the resolved granularity,
heartbeats is a global channel with an empty product list. -/
def subscribe_msgs (products : List String) (gran : String) :
    List SubscribeMsg :=
  [{ type := "subscribe"
     product_ids := products
     channel := "ticker"
     granularity := none },
   { type := "subscribe"
     product_ids := products
     channel := "candles"
     granularity := some gran },
   { type := "subscribe"
     product_ids := []
     channel := "heartbeats"
     granularity := none }]

inductive SessionEvent where
  | sent (s : SubscribeMsg)
  | routed (e : RouteEvent)
deriving DecidableEq

/-- `_on_open`: on connection open every subscribe frame is sent, in order. -/
def raw_on_open (products : List String) (gran : String) : List SessionEvent :=
  (subscribe_msgs products gran).map SessionEvent.sent

/-- One raw-websocket session: the transport fires the open handler first and
only then delivers frames, each decoded and routed (`_on_message`). -/
def raw_session (products : List String) (gran : String) (cbs : Callbacks)
    (frames : List Msg) : List SessionEvent :=
  raw_on_open products gran
    ++ frames.flatMap fun m => (route_trace cbs m).map SessionEvent.routed

/-! ## The raw reconnect loop (`_run_raw_ws`, lines 268-278)

Each iteration calls `run_forever`; a raising call is logged and followed by
`time.sleep(3)`, then (stop not being requested) `time.sleep(1)` runs before
the next connect.  A list of scripted outcomes stands for the consecutive
failed attempts of one run of the loop while stop is never requested. -/

inductive AttemptOutcome where
  | raised
  | disconnected
deriving DecidableEq

inductive LoopEvent where
  | connect
  | sleep (secs : Nat)
deriving DecidableEq

def iteration_events : AttemptOutcome → List LoopEvent
  | AttemptOutcome.raised =>
      [LoopEvent.connect, LoopEvent.sleep 3, LoopEvent.sleep 1]
  | AttemptOutcome.disconnected => [LoopEvent.connect, LoopEvent.sleep 1]

def raw_loop_events : List AttemptOutcome → List LoopEvent
  | [] => []
  | o :: rest => iteration_events o ++ raw_loop_events rest

/-- The total delay slept between a failed attempt and the next connect:
3 + 1 seconds after a raising attempt, 1 second after a clean disconnect. -/
def backoff_delay : AttemptOutcome → Nat
  | AttemptOutcome.raised => 3 + 1
  | AttemptOutcome.disconnected => 1

def backoff_delays (outcomes : List AttemptOutcome) : List Nat :=
  outcomes.map backoff_delay

def sleep_total (evs : List LoopEvent) : Nat :=
  (evs.filterMap fun e =>
    match e with
    | LoopEvent.sleep s => some s
    | _ => none).sum

/-! ## Client state (`CoinbaseWSClient.__init__`, `start`, `stop`) -/

/-- The mutable fields of `CoinbaseWSClient` the public API touches, plus a
ghost count of threads ever spawned.  `thread = none` means `_thread is
None`; `some alive` carries `_thread.is_alive()`. -/
structure WSClientState where
  products : List String
  granularity : String
  use_sdk_preferred : Bool
  thread : Option Bool
  stop_event : Bool
  threads_spawned : Nat
deriving DecidableEq

/-- Python `products or ["BTC-USD"]`: `None` and the (falsy) empty list both
yield the default. -/
def py_or_list (a : Option (List String)) (dflt : List String) :
    List String :=
  match a with
  | none => dflt
  | some l => if l = [] then dflt else l

/-- `CoinbaseWSClient.__init__`.  The body only assigns attributes and calls
the total `_resolve_granularity`; `Except` records that construction, were it
to validate anything, could fail — it never does. -/
def client_init (products : Option (List String)) (granularity : GranInput)
    (use_sdk_preferred : Bool) : Except String WSClientState :=
  Except.ok
    { products := py_or_list products ["BTC-USD"]
      granularity := resolve_granularity granularity
      use_sdk_preferred := use_sdk_preferred
      thread := none
      stop_event := false
      threads_spawned := 0 }

/-- `CoinbaseWSClient.start`: a no-op while the thread is alive; otherwise it
clears the stop event and spawns one background thread. -/
def start (s : WSClientState) : WSClientState :=
  match s.thread with
  | some true => s
  | _ =>
      { s with
        stop_event := false
        thread := some true
        threads_spawned := s.threads_spawned + 1 }

/-- The state change `CoinbaseWSClient.stop` makes: it sets the stop event and
leaves every other attribute in place. -/
def stop_state (s : WSClientState) : WSClientState :=
  { s with stop_event := true }

/-! ## Backend selection (`_run`, `_try_run_sdk`, `_run_raw_ws`) -/

inductive BackendAttempt where
  | sdk
  | raw
deriving DecidableEq

/-- The backend connection attempts of one run of `_run` (one `start()`):
if the SDK is preferred it is tried once; if that try fails for any reason the
raw loop runs, one raw connect per iteration, and never consults the SDK
again.  Nothing records the failure on the instance. -/
def run_attempts (use_sdk_preferred : Bool) (sdk_succeeds : Bool)
    (raw_iterations : Nat) : List BackendAttempt :=
  if use_sdk_preferred then
    if sdk_succeeds then [BackendAttempt.sdk]
    else BackendAttempt.sdk :: List.replicate raw_iterations BackendAttempt.raw
  else List.replicate raw_iterations BackendAttempt.raw

/-! ## Shutdown timing (`CoinbaseWSClient.stop`, lines 98-134) -/

/-- What `stop` finds at call time: whether `_ws` and `_sdk_client` are set,
what their `close()` calls do, whether the SDK client exposes a helper thread,
and how long each joinable thread takes to exit on its own. -/
structure StopScenario where
  ws_present : Bool
  ws_close_result : Except String Unit
  sdk_present : Bool
  sdk_close_result : Except String Unit
  sdk_has_thread : Bool
  sdk_thread_exit : Nat
  thread_present : Bool
  thread_exit : Nat

/-- The time `stop(timeout)` blocks: `th.join(timeout=timeout)` on the SDK
helper thread when present, then `self._thread.join(timeout=timeout)`; each
join returns after the thread exits or the timeout elapses, whichever is
first.  Close calls and signal-setting are treated as instantaneous. -/
def stop_elapsed (env : StopScenario) (timeout : Nat) : Nat :=
  (if env.sdk_present && env.sdk_has_thread then
    min env.sdk_thread_exit timeout
  else 0)
    + (if env.thread_present then min env.thread_exit timeout else 0)

/-- `try: ... except Exception: pass` around a close call. -/
def guard_close (r : Except String Unit) : Except String Unit :=
  match r with
  | Except.ok _ => Except.ok ()
  | Except.error _ => Except.ok ()

/-- `CoinbaseWSClient.stop` as a whole: both close calls run behind guards (an
unguarded failure would surface as `Except.error`), then the bounded joins. -/
def stop_run (env : StopScenario) (timeout : Nat) : Except String Nat :=
  match (if env.ws_present then guard_close env.ws_close_result
         else Except.ok ()) with
  | Except.error e => Except.error e
  | Except.ok _ =>
      match (if env.sdk_present then guard_close env.sdk_close_result
             else Except.ok ()) with
      | Except.error e => Except.error e
      | Except.ok _ => Except.ok (stop_elapsed env timeout)

/-- A shutdown scenario in which both joinable threads outlive any timeout:
an SDK helper thread is present and neither it nor the background thread
exits on its own. -/
def stop_env_slow : StopScenario :=
  { ws_present := true
    ws_close_result := Except.ok ()
    sdk_present := true
    sdk_close_result := Except.ok ()
    sdk_has_thread := true
    sdk_thread_exit := 1000000
    thread_present := true
    thread_exit := 1000000 }

/-! ## The service façade (`WebSocketService`) -/

structure ServiceState where
  client_instance : Option WSClientState
  ticker_data : Option Msg
  candle_data : Option Msg
  heartbeat_data : Option Msg
deriving DecidableEq

structure StatusResult where
  is_running : Bool
  ticker_data : Option Msg
  candle_data : Option Msg
  heartbeat_data : Option Msg
deriving DecidableEq

def thread_alive (c : WSClientState) : Bool :=
  match c.thread with
  | some alive => alive
  | none => false

/-- `WebSocketService.stop_websocket`: with no client it reports success and
touches nothing; otherwise `client.stop()` runs (it never raises — `stop_run`
always returns `Except.ok`), the instance reference is dropped and all three
latest-data entries are reset.  The Bool is the success flag. -/
def stop_websocket (svc : ServiceState) : ServiceState × Bool :=
  match svc.client_instance with
  | none => (svc, true)
  | some _ =>
      ({ client_instance := none
         ticker_data := none
         candle_data := none
         heartbeat_data := none }, true)

/-- `WebSocketService.get_websocket_status`: running means an instance is held
whose `_thread` is not `None` and is alive; the latest data is returned as
stored. -/
def get_websocket_status (svc : ServiceState) : StatusResult :=
  { is_running :=
      match svc.client_instance with
      | some c => thread_alive c
      | none => false
    ticker_data := svc.ticker_data
    candle_data := svc.candle_data
    heartbeat_data := svc.heartbeat_data }

theorem dict_get_mem {α β : Type} [DecidableEq α] (k : α) (v : β)
    (t : List (α × β)) (h : dict_get k t = some v) : v ∈ t.map Prod.snd := by
  induction t with
  | nil => exact Option.noConfusion h
  | cons p rest ih =>
      rw [dict_get] at h
      split_ifs at h
      · injection h with h
        subst h
        exact List.mem_cons_self _ _
      · exact List.mem_cons_of_mem _ (ih h)

theorem alias_map_canonical (g v : String) (h : alias_map g = some v) :
    v ∈ canonical_granularities := by
  have hall : ∀ x ∈ alias_table.map Prod.snd, x ∈ canonical_granularities := by
    decide
  exact hall v (dict_get_mem g v alias_table h)

theorem granularity_map_str_canonical (s v : String)
    (h : granularity_map_str s = some v) : v ∈ canonical_granularities := by
  have hall : ∀ x ∈ granularity_map_str_table.map Prod.snd,
      x ∈ canonical_granularities := by
    decide
  exact hall v (dict_get_mem s v granularity_map_str_table h)

theorem granularity_map_int_canonical (n : Int) (v : String)
    (h : granularity_map_int n = some v) : v ∈ canonical_granularities := by
  have hall : ∀ x ∈ granularity_map_int_table.map Prod.snd,
      x ∈ canonical_granularities := by
    decide
  exact hall v (dict_get_mem n v granularity_map_int_table h)

/-- C1: `_resolve_granularity` is total and table-driven: every input (absent,
any string, any integer) resolves to one of the six canonical enum values and
the translation never fails; any string whose stripped, uppercased form is in
the alias table resolves through that table (so resolution is case- and
format-insensitive); the six known second counts resolve through the integer
table; the spelled-out enum names, the short aliases in any letter case, and
the second counts each map to their corresponding enum value; absent input and
every unrecognized string or integer resolve to the default THIRTY_MINUTE. -/
theorem C1_granularity_resolution :
    (∀ i : GranInput, resolve_granularity i ∈ canonical_granularities) ∧
    (∀ s v, alias_map (py_upper (py_strip s)) = some v →
      resolve_granularity (GranInput.ofString s) = v) ∧
    (resolve_granularity (GranInput.ofString "1m") = "ONE_MINUTE" ∧
     resolve_granularity (GranInput.ofString "5m") = "FIVE_MINUTE" ∧
     resolve_granularity (GranInput.ofString "15m") = "FIFTEEN_MINUTE" ∧
     resolve_granularity (GranInput.ofString "30m") = "THIRTY_MINUTE" ∧
     resolve_granularity (GranInput.ofString "1h") = "ONE_HOUR" ∧
     resolve_granularity (GranInput.ofString "1d") = "ONE_DAY") ∧
    (resolve_granularity (GranInput.ofString "ONE_MINUTE") = "ONE_MINUTE" ∧
     resolve_granularity (GranInput.ofString "FIVE_MINUTE") = "FIVE_MINUTE" ∧
     resolve_granularity (GranInput.ofString "FIFTEEN_MINUTE") = "FIFTEEN_MINUTE" ∧
     resolve_granularity (GranInput.ofString "THIRTY_MINUTE") = "THIRTY_MINUTE" ∧
     resolve_granularity (GranInput.ofString "ONE_HOUR") = "ONE_HOUR" ∧
     resolve_granularity (GranInput.ofString "ONE_DAY") = "ONE_DAY") ∧
    (resolve_granularity (GranInput.ofString "30M") = "THIRTY_MINUTE" ∧
     resolve_granularity (GranInput.ofString "thirty_minute") = "THIRTY_MINUTE" ∧
     resolve_granularity (GranInput.ofString " 30m ") = "THIRTY_MINUTE") ∧
    (resolve_granularity (GranInput.ofInt 60) = "ONE_MINUTE" ∧
     resolve_granularity (GranInput.ofInt 300) = "FIVE_MINUTE" ∧
     resolve_granularity (GranInput.ofInt 900) = "FIFTEEN_MINUTE" ∧
     resolve_granularity (GranInput.ofInt 1800) = "THIRTY_MINUTE" ∧
     resolve_granularity (GranInput.ofInt 3600) = "ONE_HOUR" ∧
     resolve_granularity (GranInput.ofInt 86400) = "ONE_DAY") ∧
    (resolve_granularity GranInput.absent = "THIRTY_MINUTE") ∧
    (∀ s, alias_map (py_upper (py_strip s)) = none →
      granularity_map_str s = none →
      resolve_granularity (GranInput.ofString s) = "THIRTY_MINUTE") ∧
    (∀ n, granularity_map_int n = none →
      resolve_granularity (GranInput.ofInt n) = "THIRTY_MINUTE") := by
  refine ⟨?_, ?_, by decide, by decide, by decide, by decide, by decide, ?_, ?_⟩
  · intro i
    cases i with
    | absent => decide
    | ofString s =>
        simp only [resolve_granularity]
        cases h : alias_map (py_upper (py_strip s)) with
        | some v => exact alias_map_canonical _ _ h
        | none =>
            cases h2 : granularity_map_str s with
            | some v =>
                simpa [h2] using granularity_map_str_canonical _ _ h2
            | none => simp [h2]; decide
    | ofInt n =>
        simp only [resolve_granularity]
        cases h : granularity_map_int n with
        | some v => simpa [h] using granularity_map_int_canonical _ _ h
        | none => simp [h]; decide
  · intro s v h
    simp only [resolve_granularity, h]
  · intro s h h2
    simp only [resolve_granularity, h, h2, Option.getD]
  · intro n h
    simp only [resolve_granularity, h, Option.getD]

/-! ## Routing lemmas -/

theorem dispatch_cb_some (slot : CbSlot) (f : Callback) (m : Msg) :
    dispatch_cb slot (some f) m = Except.ok [RouteEvent.invoked slot m] := by
  unfold dispatch_cb
  cases h : f m <;> simp [h]

theorem dispatch_cb_ok (slot : CbSlot) (cb : Option Callback) (m : Msg) :
    ∃ evs, dispatch_cb slot cb m = Except.ok evs := by
  cases cb with
  | none => exact ⟨[], rfl⟩
  | some f => exact ⟨_, dispatch_cb_some slot f m⟩

theorem route_message_never_errors (cbs : Callbacks) (m : Msg) :
    ∃ evs, route_message cbs m = Except.ok evs := by
  unfold route_message
  split_ifs <;>
    first
      | exact dispatch_cb_ok _ _ _
      | exact ⟨_, rfl⟩

theorem route_message_eq_trace (cbs : Callbacks) (m : Msg) :
    route_message cbs m = Except.ok (route_trace cbs m) := by
  obtain ⟨evs, h⟩ := route_message_never_errors cbs m
  rw [route_trace, h]

theorem route_all_eq_flatMap (cbs : Callbacks) (ms : List Msg) :
    route_all cbs ms = Except.ok (ms.flatMap (route_trace cbs)) := by
  induction ms with
  | nil => rfl
  | cons m rest ih =>
      rw [route_all, route_message_eq_trace cbs m, ih]
      simp

theorem route_message_ticker (cbs : Callbacks) (m : Msg)
    (h : route_channel m = some "ticker" ∨
      route_channel m = some "ticker_batch") :
    route_message cbs m = dispatch_cb CbSlot.ticker cbs.on_ticker m := by
  unfold route_message
  rcases h with h | h <;> rw [h] <;> simp

theorem route_message_candle (cbs : Callbacks) (m : Msg)
    (h : route_channel m = some "candles" ∨
      route_channel m = some "candle") :
    route_message cbs m = dispatch_cb CbSlot.candle cbs.on_candle m := by
  unfold route_message
  rcases h with h | h <;> rw [h] <;> simp

theorem route_message_heartbeat (cbs : Callbacks) (m : Msg)
    (h : route_channel m = some "heartbeat" ∨
      route_channel m = some "heartbeats") :
    route_message cbs m = dispatch_cb CbSlot.heartbeat cbs.on_heartbeat m := by
  unfold route_message
  rcases h with h | h <;> rw [h] <;> simp

theorem route_message_meta (cbs : Callbacks) (m : Msg)
    (h : route_channel m = some "subscriptions" ∨
      route_channel m = some "error") :
    route_message cbs m = Except.ok [RouteEvent.logInfo m] := by
  unfold route_message
  rcases h with h | h <;> rw [h] <;> simp

theorem route_message_unhandled (cbs : Callbacks) (m : Msg)
    (h : channel_handled (route_channel m) = false) :
    route_message cbs m = Except.ok [RouteEvent.logDebug m] := by
  unfold route_message
  cases hc : route_channel m with
  | none => simp
  | some c =>
      rw [hc] at h
      simp [channel_handled, handled_channels] at h
      obtain ⟨h1, h2, h3, h4, h5, h6, h7, h8⟩ := h
      simp [h1, h2, h3, h4, h5, h6, h7, h8]

theorem invocations_append (a b : List RouteEvent) :
    invocations (a ++ b) = invocations a ++ invocations b := by
  simp [invocations]

/-- C2: every decoded message is classified by its channel field (falling back
to the legacy type field); a ticker or ticker_batch message invokes the
registered ticker callback exactly once, candles or candle the candle
callback, heartbeat or heartbeats the heartbeat callback; with no callback
registered for the recognized channel nothing is invoked; subscriptions and
error messages produce an info log record only; any other channel produces a
debug log record, invokes nothing and raises nothing; and a sequence of
messages yields the per-message traces concatenated in input order. -/
theorem C2_routing_correctness :
    (∀ cbs m f, (route_channel m = some "ticker" ∨
        route_channel m = some "ticker_batch") →
      cbs.on_ticker = some f →
      route_message cbs m = Except.ok [RouteEvent.invoked CbSlot.ticker m]) ∧
    (∀ cbs m f, (route_channel m = some "candles" ∨
        route_channel m = some "candle") →
      cbs.on_candle = some f →
      route_message cbs m = Except.ok [RouteEvent.invoked CbSlot.candle m]) ∧
    (∀ cbs m f, (route_channel m = some "heartbeat" ∨
        route_channel m = some "heartbeats") →
      cbs.on_heartbeat = some f →
      route_message cbs m = Except.ok [RouteEvent.invoked CbSlot.heartbeat m]) ∧
    (∀ cbs m, (route_channel m = some "ticker" ∨
        route_channel m = some "ticker_batch") →
      cbs.on_ticker = none → route_message cbs m = Except.ok []) ∧
    (∀ cbs m, (route_channel m = some "subscriptions" ∨
        route_channel m = some "error") →
      route_message cbs m = Except.ok [RouteEvent.logInfo m]) ∧
    (∀ cbs m, channel_handled (route_channel m) = false →
      route_message cbs m = Except.ok [RouteEvent.logDebug m]) ∧
    (∀ cbs ms, route_all cbs ms = Except.ok (ms.flatMap (route_trace cbs))) ∧
    (∀ (cbs : Callbacks) (ms : List Msg),
      invocations (ms.flatMap (route_trace cbs))
        = ms.flatMap fun m => invocations (route_trace cbs m)) := by
  refine ⟨?_, ?_, ?_, ?_, ?_, ?_, ?_, ?_⟩
  · intro cbs m f h hf
    rw [route_message_ticker cbs m h, hf, dispatch_cb_some]
  · intro cbs m f h hf
    rw [route_message_candle cbs m h, hf, dispatch_cb_some]
  · intro cbs m f h hf
    rw [route_message_heartbeat cbs m h, hf, dispatch_cb_some]
  · intro cbs m h hf
    rw [route_message_ticker cbs m h, hf]
    rfl
  · intro cbs m h
    exact route_message_meta cbs m h
  · intro cbs m h
    exact route_message_unhandled cbs m h
  · intro cbs ms
    exact route_all_eq_flatMap cbs ms
  · intro cbs ms
    induction ms with
    | nil => rfl
    | cons m rest ih => simp [invocations_append, ih]

/-- C3 as stated is false on the code: a callback exception is caught by a
bare `except Exception: pass`, which emits NO log record.  Routing a ticker
message to a callback that raises yields a trace holding the invocation and
nothing else — in particular no log event — contradicting the claim that the
router logs the exception. -/
theorem C3_counterexample :
    route_message cbs_raising msg_ticker
      = Except.ok [RouteEvent.invoked CbSlot.ticker msg_ticker] ∧
    (route_trace cbs_raising msg_ticker).filter is_log_event = [] := by
  exact ⟨rfl, rfl⟩

/-- C3 (amended): for every message and every registered callback that raises,
the router catches the exception and silently ignores it — no log record is
emitted — and returns normally; the exception never propagates out of the
routing call, and a subsequent message of any recognized channel still reaches
its (possibly different) callback. -/
theorem C3_callback_fault_isolation :
    (∀ cbs m, ∃ evs, route_message cbs m = Except.ok evs) ∧
    (∀ cbs m f e, (route_channel m = some "ticker" ∨
        route_channel m = some "ticker_batch") →
      cbs.on_ticker = some f → f m = Except.error e →
      route_message cbs m = Except.ok [RouteEvent.invoked CbSlot.ticker m] ∧
      (route_trace cbs m).filter is_log_event = []) ∧
    (route_all cbs_mixed [msg_ticker, msg_heartbeat]
      = Except.ok [RouteEvent.invoked CbSlot.ticker msg_ticker,
          RouteEvent.invoked CbSlot.heartbeat msg_heartbeat]) ∧
    (∀ cbs ms, route_all cbs ms = Except.ok (ms.flatMap (route_trace cbs))) := by
  refine ⟨route_message_never_errors, ?_, rfl, route_all_eq_flatMap⟩
  intro cbs m f e h hf _
  have hm : route_message cbs m
      = Except.ok [RouteEvent.invoked CbSlot.ticker m] := by
    rw [route_message_ticker cbs m h, hf, dispatch_cb_some]
  refine ⟨hm, ?_⟩
  rw [route_trace, hm]
  rfl

/-! ## Subscription, backoff, lifecycle and service theorems -/

/-- C4: for every configured product list and resolved granularity the raw
backend builds exactly three subscribe requests, each with type "subscribe":
a ticker subscription scoped to the configured products, a candles
subscription with the same products carrying the resolved granularity, and a
heartbeats subscription with an empty (feed-wide) product list; all three are
sent by the open handler, so in any session they precede every routed data
message. -/
theorem C4_subscribe_requests :
    (∀ (products : List String) (gran : String),
      subscribe_msgs products gran =
        [⟨"subscribe", products, "ticker", none⟩,
         ⟨"subscribe", products, "candles", some gran⟩,
         ⟨"subscribe", [], "heartbeats", none⟩]) ∧
    (∀ (products : List String) (gran : String),
      (subscribe_msgs products gran).length = 3) ∧
    (∀ (products : List String) (gran : String) (cbs : Callbacks)
        (frames : List Msg),
      raw_session products gran cbs frames
        = (subscribe_msgs products gran).map SessionEvent.sent
            ++ frames.flatMap fun m =>
              (route_trace cbs m).map SessionEvent.routed) ∧
    (∀ (products : List String) (gran : String) (cbs : Callbacks)
        (frames : List Msg),
      (raw_session products gran cbs frames).take 3
        = (subscribe_msgs products gran).map SessionEvent.sent) := by
  refine ⟨fun products gran => rfl, fun products gran => rfl,
    fun products gran cbs frames => rfl, ?_⟩
  intro products gran cbs frames
  have hlen : ((subscribe_msgs products gran).map SessionEvent.sent).length
      = 3 := rfl
  calc (raw_session products gran cbs frames).take 3
      = (((subscribe_msgs products gran).map SessionEvent.sent)
          ++ frames.flatMap fun m =>
            (route_trace cbs m).map SessionEvent.routed).take
          ((subscribe_msgs products gran).map SessionEvent.sent).length := by
        rw [hlen]; rfl
    _ = (subscribe_msgs products gran).map SessionEvent.sent :=
        List.take_left _ _

/-- C5 as stated is false on the code: the reconnect delays never grow.  Four
consecutive raising connect attempts each cost the same 3 + 1 second sleep, so
no floor/ceiling pair with floor < ceiling can present these delays as
doubling from the floor up to the ceiling. -/
theorem C5_counterexample :
    backoff_delays (List.replicate 4 AttemptOutcome.raised) = [4, 4, 4, 4] ∧
    ¬ ∃ floor ceil : Nat, floor < ceil ∧ ∀ k, k < 4 →
        (backoff_delays (List.replicate 4 AttemptOutcome.raised)).getD k 0
          = min (floor * 2 ^ k) ceil := by
  constructor
  · rfl
  · rintro ⟨floor, ceil, hlt, h⟩
    have h0 := h 0 (by norm_num)
    have h1 := h 1 (by norm_num)
    have e : backoff_delays (List.replicate 4 AttemptOutcome.raised)
        = [4, 4, 4, 4] := rfl
    rw [e] at h0 h1
    norm_num [List.getD] at h0 h1
    omega

/-- C5 (amended): after every disconnect or raising connect attempt while stop
has not been requested, the loop sleeps a fixed delay before the next connect
(3 + 1 seconds after an exception, 1 second after a clean disconnect); across
any N consecutive failures the delay sequence is constant per outcome kind —
hence non-decreasing and bounded by 4 — and there is no growing backoff state:
nothing doubles and nothing needs resetting after a success. -/
theorem C5_fixed_delay_no_growth :
    (∀ outcomes : List AttemptOutcome,
      raw_loop_events outcomes = outcomes.flatMap iteration_events) ∧
    (∀ outcomes : List AttemptOutcome,
      sleep_total (raw_loop_events outcomes) = (backoff_delays outcomes).sum) ∧
    (∀ n, backoff_delays (List.replicate n AttemptOutcome.raised)
        = List.replicate n 4) ∧
    (∀ n, backoff_delays (List.replicate n AttemptOutcome.disconnected)
        = List.replicate n 1) ∧
    (∀ (outcomes : List AttemptOutcome) (d : Nat),
      d ∈ backoff_delays outcomes → d = 1 ∨ d = 4) := by
  refine ⟨?_, ?_, ?_, ?_, ?_⟩
  · intro outcomes
    induction outcomes with
    | nil => rfl
    | cons o rest ih => rw [raw_loop_events, ih, List.flatMap_cons]
  · intro outcomes
    induction outcomes with
    | nil => rfl
    | cons o rest ih =>
        rw [raw_loop_events,
          show backoff_delays (o :: rest)
            = backoff_delay o :: backoff_delays rest from rfl,
          List.sum_cons, ← ih]
        cases o <;>
            simp [iteration_events, sleep_total, backoff_delay,
              List.filterMap_append] <;>
          omega
  · intro n
    rw [backoff_delays, List.map_replicate]
    rfl
  · intro n
    rw [backoff_delays, List.map_replicate]
    rfl
  · intro outcomes d hd
    rw [backoff_delays, List.mem_map] at hd
    obtain ⟨o, _, rfl⟩ := hd
    cases o
    · right; rfl
    · left; rfl

/-- C6 as stated is false on the code: constructing the client with an empty
product list raises nothing — `products or ["BTC-USD"]` treats the empty
(falsy) list like None and silently substitutes the default product set, and
start() then succeeds on the resulting state. -/
theorem C6_counterexample :
    ∃ s, client_init (some []) (GranInput.ofString "30m") true = Except.ok s ∧
      s.products = ["BTC-USD"] ∧ (start s).thread = some true ∧
      (start s).threads_spawned = 1 := by
  exact ⟨_, rfl, rfl, rfl, rfl⟩

/-- C6 (amended): an empty product list is not a configuration error —
construction succeeds and behaves exactly as if no product list had been
passed, substituting the default product set BTC-USD; construction never
fails for any input, and start() on any constructed state succeeds. -/
theorem C6_empty_products_defaulted :
    (∀ (g : GranInput) (p : Bool), ∃ s,
      client_init (some []) g p = Except.ok s ∧ s.products = ["BTC-USD"]) ∧
    (∀ (g : GranInput) (p : Bool),
      client_init (some []) g p = client_init none g p) ∧
    (∀ (ps : Option (List String)) (g : GranInput) (p : Bool), ∃ s,
      client_init ps g p = Except.ok s) ∧
    (∀ s : WSClientState, (start s).thread = some true) := by
  refine ⟨fun g p => ⟨_, rfl, rfl⟩, fun g p => rfl,
    fun ps g p => ⟨_, rfl⟩, ?_⟩
  intro s
  unfold start
  cases h : s.thread with
  | none => rfl
  | some alive => cases alive <;> simp [h]

/-- C7 as stated is false on the code: the fallback is not sticky for the
process lifetime.  Nothing records the SDK failure on the instance, so after a
stop()/start() cycle the next run of the background loop consults
use_sdk_preferred again: two runs in which the SDK attempt fails each begin
with a fresh SDK attempt — the combined attempt sequence has an SDK attempt
(index 2) after the fallback to raw (index 1). -/
theorem C7_counterexample :
    run_attempts true false 1 ++ run_attempts true false 1
      = [BackendAttempt.sdk, BackendAttempt.raw,
         BackendAttempt.sdk, BackendAttempt.raw] ∧
    (run_attempts true false 1 ++ run_attempts true false 1).getD 1
        BackendAttempt.sdk = BackendAttempt.raw ∧
    (run_attempts true false 1 ++ run_attempts true false 1).getD 2
        BackendAttempt.raw = BackendAttempt.sdk ∧
    ((run_attempts true false 1 ++ run_attempts true false 1).count
        BackendAttempt.sdk = 2) := by
  exact ⟨rfl, rfl, rfl, rfl⟩

/-- C7 (amended): the fallback is sticky within one run of the background
loop: once the SDK attempt fails, every subsequent connection attempt of that
run's retry loop uses the raw backend and the SDK is never re-attempted by a
reconnect iteration; but the decision is not persisted — neither start nor
stop changes use_sdk_preferred, so a later stop()/start() cycle re-evaluates
the SDK preference. -/
theorem C7_sdk_fallback_sticky_per_run :
    (∀ n, run_attempts true false n
        = BackendAttempt.sdk :: List.replicate n BackendAttempt.raw) ∧
    (∀ n, ((run_attempts true false n).drop 1).count BackendAttempt.sdk
        = 0) ∧
    (∀ n, run_attempts true true n = [BackendAttempt.sdk]) ∧
    (∀ (sdk_ok : Bool) (n : Nat),
      (run_attempts false sdk_ok n).count BackendAttempt.sdk = 0) ∧
    (∀ s, (start s).use_sdk_preferred = s.use_sdk_preferred) ∧
    (∀ s, (stop_state s).use_sdk_preferred = s.use_sdk_preferred) := by
  have hrep : ∀ n : Nat,
      (List.replicate n BackendAttempt.raw).count BackendAttempt.sdk = 0 := by
    intro n
    induction n with
    | zero => rfl
    | succ k ih => rw [List.replicate_succ, List.count_cons, ih]; rfl
  refine ⟨fun n => rfl, ?_, fun n => rfl, ?_, ?_, fun s => rfl⟩
  · intro n
    rw [show run_attempts true false n
      = BackendAttempt.sdk :: List.replicate n BackendAttempt.raw from rfl]
    exact hrep n
  · intro sdk_ok n
    rw [show run_attempts false sdk_ok n
      = List.replicate n BackendAttempt.raw from rfl]
    exact hrep n
  · intro s
    unfold start
    cases h : s.thread with
    | none => rfl
    | some alive => cases alive <;> simp [h]

/-- C8: start() is idempotent — a second start() while the background thread
is alive is a silent no-op, so two start() calls in immediate succession
leave exactly one alive background thread and spawn exactly one thread (none
extra when one was already alive); start never raises (it is a total state
function). -/
theorem C8_start_idempotent :
    (∀ s : WSClientState, start (start s) = start s) ∧
    (∀ s : WSClientState, (start s).thread = some true) ∧
    (∀ s : WSClientState, (start s).threads_spawned
        = s.threads_spawned + (if s.thread = some true then 0 else 1)) ∧
    (∀ s : WSClientState, (start (start s)).threads_spawned
        = s.threads_spawned + (if s.thread = some true then 0 else 1)) := by
  have halive : ∀ s : WSClientState, (start s).thread = some true := by
    intro s
    unfold start
    cases h : s.thread with
    | none => rfl
    | some alive => cases alive <;> simp [h]
  have hnoop : ∀ s : WSClientState, s.thread = some true → start s = s := by
    intro s h
    unfold start
    rw [h]
  have hidem : ∀ s : WSClientState, start (start s) = start s := by
    intro s
    exact hnoop (start s) (halive s)
  have hcount : ∀ s : WSClientState, (start s).threads_spawned
      = s.threads_spawned + (if s.thread = some true then 0 else 1) := by
    intro s
    unfold start
    cases h : s.thread with
    | none => simp [h]
    | some alive => cases alive <;> simp [h]
  refine ⟨hidem, halive, hcount, ?_⟩
  intro s
  rw [hidem, hcount]

/-- C9 as stated is false on the code: stop(timeout=T) is not bounded by
T plus a small epsilon.  When an SDK helper thread is present, stop performs
two sequential joins each waiting up to T — with both threads outliving the
timeout the call blocks 2T (concretely 10 seconds for T = 5), so no epsilon
bounds stop's duration by T + epsilon across all states. -/
theorem C9_counterexample :
    stop_elapsed stop_env_slow 5 = 10 ∧
    ¬ ∃ eps : Nat, ∀ (env : StopScenario) (timeout : Nat),
        stop_elapsed env timeout ≤ timeout + eps := by
  constructor
  · rfl
  · rintro ⟨eps, h⟩
    have h2 := h
      ⟨true, Except.ok (), true, Except.ok (), true, eps + 1, true, eps + 1⟩
      (eps + 1)
    have e : stop_elapsed
        ⟨true, Except.ok (), true, Except.ok (), true, eps + 1, true, eps + 1⟩
        (eps + 1) = (eps + 1) + (eps + 1) := by
      simp [stop_elapsed]
    rw [e] at h2
    omega

/-- C9 (amended): stop(timeout=T) is idempotent, never raises (every close
failure is caught), and always returns within 2T — one bounded join on the
SDK helper thread when present plus one bounded join on the background
thread; with no SDK client the bound is T. -/
theorem C9_stop_bounded_idempotent :
    (∀ (env : StopScenario) (timeout : Nat),
      stop_run env timeout = Except.ok (stop_elapsed env timeout)) ∧
    (∀ (env : StopScenario) (timeout : Nat),
      stop_elapsed env timeout ≤ 2 * timeout) ∧
    (∀ (env : StopScenario) (timeout : Nat), env.sdk_present = false →
      stop_elapsed env timeout ≤ timeout) ∧
    (∀ s : WSClientState, stop_state (stop_state s) = stop_state s) ∧
    (∀ s : WSClientState, (stop_state s).stop_event = true) := by
  have hguard : ∀ r : Except String Unit, guard_close r = Except.ok () := by
    intro r
    cases r <;> rfl
  refine ⟨?_, ?_, ?_, fun s => rfl, fun s => rfl⟩
  · intro env timeout
    unfold stop_run
    cases hw : env.ws_present <;> cases hs : env.sdk_present <;>
      simp [hw, hs, hguard]
  · intro env timeout
    unfold stop_elapsed
    have h1 : min env.sdk_thread_exit timeout ≤ timeout :=
      Nat.min_le_right _ _
    have h2 : min env.thread_exit timeout ≤ timeout := Nat.min_le_right _ _
    split_ifs <;> omega
  · intro env timeout h
    have h2 : min env.thread_exit timeout ≤ timeout := Nat.min_le_right _ _
    unfold stop_elapsed
    rw [h]
    simp only [Bool.false_and]
    cases ht : env.thread_present <;> simp [ht] <;> omega

/-- C10: after a successful stop through the service façade the retained
per-channel snapshot is discarded — stop_websocket drops the client instance
and resets the ticker, candle and heartbeat entries to None, it reports
success, and every subsequent status query on the resulting state reports
is_running false with all three latest-data values empty; stopping again
changes nothing. -/
theorem C10_stop_clears_service_snapshot :
    (∀ (svc : ServiceState) (c : WSClientState),
      svc.client_instance = some c →
      stop_websocket svc = (⟨none, none, none, none⟩, true)) ∧
    (∀ svc : ServiceState, (stop_websocket svc).2 = true) ∧
    (∀ (svc : ServiceState) (c : WSClientState),
      svc.client_instance = some c →
      get_websocket_status (stop_websocket svc).1
        = ⟨false, none, none, none⟩) ∧
    (∀ svc : ServiceState,
      stop_websocket (stop_websocket svc).1 = ((stop_websocket svc).1, true)) := by
  have hsome : ∀ (svc : ServiceState) (c : WSClientState),
      svc.client_instance = some c →
      stop_websocket svc = (⟨none, none, none, none⟩, true) := by
    intro svc c h
    unfold stop_websocket
    rw [h]
  refine ⟨hsome, ?_, ?_, ?_⟩
  · intro svc
    unfold stop_websocket
    cases h : svc.client_instance <;> rfl
  · intro svc c h
    rw [hsome svc c h]
    rfl
  · intro svc
    cases h : svc.client_instance with
    | none =>
        have e : stop_websocket svc = (svc, true) := by
          unfold stop_websocket
          rw [h]
        rw [e]
        exact e
    | some c =>
        have e : stop_websocket svc = (⟨none, none, none, none⟩, true) := by
          unfold stop_websocket
          rw [h]
        rw [e]
        rfl
